import Mathlib

/-!
Shallow embedding of `src/snips-nlu-ontology-ffi/src/builtin_entity_parser.rs`,
the C ABI shim over the builtin-entity extraction engine, together with proofs
about its handle lifecycle, argument validation and result marshaling.

External collaborators that the shim calls but whose code is not under the
given sources (the error enum of `errors.rs`, `Language::from_str`,
`BuiltinEntityKind::from_identifier`, `BuiltinEntityParser::get`,
`parser.extract_entities`, `CBuiltinEntity::from`) are modelled from the spec
and marked as such; they are kept as parameters wherever the claims do not fix
them. Heap effects visible in the shim — the container box allocated by
create, the `Arc` strong count manipulated through `Arc::into_raw` /
`Arc::from_raw`, and the caller's output slots — are made explicit as a state
record and explicit slot values.
-/

set_option autoImplicit false

namespace Snips

/-- Modelled from the spec (its error taxonomy, with the kinds reachable in
this file): the concrete error enum lives in `errors.rs`, which is not among
the given sources. `invalidText` is malformed text bytes in a string argument,
`unknownLanguage` an unrecognized language code at creation, and
`unknownEntityKind` an unrecognized kind name in a filter list. -/
inductive OntologyError where
  | invalidText
  | unknownLanguage (code : String)
  | unknownEntityKind (name : String)
  deriving DecidableEq

/-- A null-terminated byte buffer as the shim observes it through
`CStr::from_ptr(...).to_str()`: the bytes either decode to valid UTF-8 text or
they do not, and only that outcome is used by the code. -/
inductive CStr where
  | invalid
  | valid (s : String)
  deriving DecidableEq

/-- The `to_str()?` step of the shim: malformed bytes become an invalid-text
failure, valid bytes give the decoded text. -/
def CStr.toStr : CStr → Except OntologyError String
  | .invalid => .error .invalidText
  | .valid s => .ok s

/-- The two-valued status returned across the ABI (`ffi_utils::CResult`,
`RESULT_OK = 0`, `RESULT_KO = 1`). -/
inductive CResult where
  | RESULT_OK
  | RESULT_KO
  deriving DecidableEq

/-- Modelled from the spec: `Language::from_str` (defined in the
`snips-nlu-ontology` crate, not among the given sources) resolves a text code
to a recognized language identifier and fails with `UnknownLanguage` on any
code outside the supported set; the supported set is a parameter. -/
def languageFromStr (supported : List String) (code : String) :
    Except OntologyError String :=
  if supported.contains code then .ok code else .error (.unknownLanguage code)

/-- Modelled from the spec: `BuiltinEntityKind::from_identifier` resolves a
kind name against the external taxonomy and fails on names absent from it; the
taxonomy is a parameter. The `chain_err` wrapper in the source names the
offending value in the error. -/
def builtinEntityKindFromIdentifier (kinds : List String) (s : String) :
    Except OntologyError String :=
  if kinds.contains s then .ok s else .error (.unknownEntityKind s)

/-- Modelled from the spec: one record returned by the engine — a kind
identifier, a text span and a parsed value, all opaque to this layer
(`builtin_entity.rs` is not among the given sources). -/
structure BuiltinEntity where
  kind : String
  rangeStart : Nat
  rangeEnd : Nat
  value : String
  deriving DecidableEq

/-- Modelled from the spec: the C-compatible output representation of one
record, produced by `CBuiltinEntity::from`. -/
structure CBuiltinEntity where
  kind : String
  rangeStart : Nat
  rangeEnd : Nat
  value : String
  deriving DecidableEq

/-- The field-by-field conversion `CBuiltinEntity::from` applied to each
engine record. -/
def CBuiltinEntity.ofEntity (e : BuiltinEntity) : CBuiltinEntity :=
  ⟨e.kind, e.rangeStart, e.rangeEnd, e.value⟩

/-- The heap state visible to the shim: the live `Box<CBuiltinEntityParser>`
containers (address paired with the parser instance stored as the opaque
pointer), the `Arc` strong count of each parser instance as manipulated
through `Arc::into_raw` / `Arc::from_raw`, and a supply of fresh box
addresses. -/
structure MemState where
  containers : List (Nat × Nat)
  rc : List (Nat × Nat)
  nextAddr : Nat
  deriving DecidableEq

/-- Acquiring one share of a parser instance (`Arc::into_raw` keeps the strong
count; a previously unseen instance starts at one share). -/
def bumpRc (pid : Nat) : List (Nat × Nat) → List (Nat × Nat)
  | [] => [(pid, 1)]
  | (p, n) :: rest =>
    if p = pid then (p, n + 1) :: rest else (p, n) :: bumpRc pid rest

/-- Releasing one share of a parser instance (`Arc::from_raw` followed by the
drop of the reconstructed `Arc`). -/
def decRc (pid : Nat) : List (Nat × Nat) → List (Nat × Nat)
  | [] => []
  | (p, n) :: rest =>
    if p = pid then (p, n - 1) :: rest else (p, n) :: decRc pid rest

/-- Strong count of a parser instance; zero means the instance has been
released. -/
def MemState.rcOf (s : MemState) (pid : Nat) : Nat :=
  (s.rc.lookup pid).getD 0

/-- Shallow embedding of the fallible body `create_builtin_entity_parser`:
decode the language code (`CStr::to_str`), resolve it (`Language::from_str`),
obtain a share of the parser instance backing that language
(`BuiltinEntityParser::get` followed by `Arc::into_raw`), allocate the
wrapping container box (`Box::into_raw(Box::new(container))`) and return its
address. `getP` names the parser instance backing each language; its
construction or caching strategy belongs to the external engine. -/
def createBuiltinEntityParser (supported : List String) (getP : String → Nat)
    (s : MemState) (lang : CStr) : Except OntologyError (MemState × Nat) := do
  let code ← lang.toStr
  let language ← languageFromStr supported code
  let pid := getP language
  let addr := s.nextAddr
  .ok ({ containers := (addr, pid) :: s.containers,
         rc := bumpRc pid s.rc,
         nextAddr := s.nextAddr + 1 }, addr)

/-- Outcome of one `create` ABI call: the heap afterwards, the status, the
diagnostic recorded by `wrap!` on failure, and the content of the caller's
handle output slot. -/
structure CreateOutcome where
  state : MemState
  status : CResult
  reported : Option OntologyError
  slot : Option Nat
  deriving DecidableEq

/-- Shallow embedding of the exported `nlu_ontology_create_builtin_entity_parser`,
`wrap!(create_builtin_entity_parser(ptr, lang))`: on success the container
address is written to `*ptr` and `RESULT_OK` returned; on failure the output
slot keeps its previous content, the error is recorded and `RESULT_KO`
returned. -/
def nlu_ontology_create_builtin_entity_parser_abi (supported : List String)
    (getP : String → Nat) (s : MemState) (lang : CStr) (slot : Option Nat) :
    CreateOutcome :=
  match createBuiltinEntityParser supported getP s lang with
  | .ok (s1, addr) => ⟨s1, .RESULT_OK, none, some addr⟩
  | .error e => ⟨s, .RESULT_KO, some e, slot⟩

/-- Resolution of one filter array: each element is decoded to text and then
resolved to a kind, left to right, stopping at the first failure — the
`map(...).collect::<OntologyResult<Vec<_>>>()?` of the source. -/
def resolveKindList (kinds : List String) :
    List CStr → Except OntologyError (List String)
  | [] => .ok []
  | c :: rest => do
    let s ← c.toStr
    let k ← builtinEntityKindFromIdentifier kinds s
    let ks ← resolveKindList kinds rest
    .ok (k :: ks)

/-- The `opt_filters` computation of `extract_entity`: a null filter pointer
is the absent sentinel (`None`), a non-null array is resolved element-wise
into `Some` of the kind list — an empty array giving `Some []`. -/
def resolveFilters (kinds : List String) :
    Option (List CStr) → Except OntologyError (Option (List String))
  | some fs => (resolveKindList kinds fs).map some
  | none => .ok none

/-- Shallow embedding of the fallible body `extract_entity` after the handle
dereference: decode the sentence, resolve the filters, invoke the engine's
extraction (`parser.extract_entities(sentence, opt_filters)`, an infallible
read-only engine call, modelled from the spec as the pure function `engine`)
and convert each returned record in order. -/
def extract_entity (kinds : List String)
    (engine : String → Option (List String) → List BuiltinEntity)
    (sentence : CStr) (filters : Option (List CStr)) :
    Except OntologyError (List CBuiltinEntity) := do
  let text ← sentence.toStr
  let fl ← resolveFilters kinds filters
  .ok ((engine text fl).map CBuiltinEntity.ofEntity)

/-- Outcome of one `extract` ABI call: the heap afterwards, the status, the
diagnostic recorded by `wrap!` on failure, and the content of the caller's
result output slot. -/
structure ExtractOutcome where
  state : MemState
  status : CResult
  reported : Option OntologyError
  slot : Option (List CBuiltinEntity)
  deriving DecidableEq

/-- Shallow embedding of `nlu_ontology_extract_entities`: `get_parser!`
dereferences the container at `addr` to reach the parser instance, the body
runs, and on success a freshly allocated result array is written to
`*results`; on failure the slot keeps its previous content. Calling on an
address that holds no live container is a precondition violation whose
behaviour the contract leaves unspecified; the embedding returns its inputs
unchanged there. `engines` names each parser instance's extraction
function. -/
def nlu_ontology_extract_entities (kinds : List String)
    (engines : Nat → String → Option (List String) → List BuiltinEntity)
    (s : MemState) (addr : Nat) (sentence : CStr)
    (filters : Option (List CStr)) (slot : Option (List CBuiltinEntity)) :
    ExtractOutcome :=
  match s.containers.lookup addr with
  | some pid =>
    match extract_entity kinds (engines pid) sentence filters with
    | .ok arr => ⟨s, .RESULT_OK, none, some arr⟩
    | .error e => ⟨s, .RESULT_KO, some e, slot⟩
  | none => ⟨s, .RESULT_KO, none, slot⟩

/-- Shallow embedding of the exported `nlu_ontology_destroy_builtin_entity_parser`: the
container at `addr` is dereferenced (`get_parser_mut!`), `Arc::from_raw`
reconstructs one share of the parser which is then dropped, and `RESULT_OK`
is returned unconditionally. The container box itself is not freed by the
code. Calling on an address that holds no live container is a precondition
violation whose behaviour the contract leaves unspecified; the embedding
leaves the state unchanged there. -/
def nlu_ontology_destroy_builtin_entity_parser_abi (s : MemState) (addr : Nat) :
    MemState × CResult :=
  match s.containers.lookup addr with
  | some pid => ({ s with rc := decRc pid s.rc }, .RESULT_OK)
  | none => (s, .RESULT_OK)

/-- The first name of a list that does not resolve in the taxonomy, if any;
used to state the first-error-in-list-order property. -/
def firstUnknownKind (kinds : List String) : List String → Option String
  | [] => none
  | s :: rest =>
    if kinds.contains s then firstUnknownKind kinds rest else some s

theorem except_bind_ok {α β ε : Type _} (a : α) (f : α → Except ε β) :
    (Except.ok a >>= f) = f a := rfl

theorem except_bind_error {α β ε : Type _} (e : ε) (f : α → Except ε β) :
    ((Except.error e : Except ε α) >>= f) = .error e := rfl

/-- Element-wise resolution of a list of valid text names fails with
`unknownEntityKind` at the first name absent from the taxonomy and succeeds
with the names themselves when all are present. -/
theorem resolveKindList_valid (kinds : List String) (ns : List String) :
    resolveKindList kinds (ns.map CStr.valid) =
      match firstUnknownKind kinds ns with
      | some name => .error (.unknownEntityKind name)
      | none => .ok ns := by
  induction ns with
  | nil => rfl
  | cons n rest ih =>
    by_cases hm : n ∈ kinds
    · cases hr : firstUnknownKind kinds rest <;>
        simp [resolveKindList, CStr.toStr, builtinEntityKindFromIdentifier,
          firstUnknownKind, hm, except_bind_ok, except_bind_error, ih, hr]
    · simp [resolveKindList, CStr.toStr, builtinEntityKindFromIdentifier,
        firstUnknownKind, hm, except_bind_ok, except_bind_error]

/-- The `extract` ABI call leaves the heap exactly as it found it. -/
theorem extract_state_eq (kinds : List String)
    (engines : Nat → String → Option (List String) → List BuiltinEntity)
    (s : MemState) (addr : Nat) (sentence : CStr)
    (filters : Option (List CStr)) (slot : Option (List CBuiltinEntity)) :
    (nlu_ontology_extract_entities kinds engines s addr sentence filters
      slot).state = s := by
  cases hL : s.containers.lookup addr with
  | none => simp [nlu_ontology_extract_entities, hL]
  | some pid =>
    cases hx : extract_entity kinds (engines pid) sentence filters <;>
      simp [nlu_ontology_extract_entities, hL, hx]

/-- On a failing `extract` ABI call the output slot keeps its previous
content. -/
theorem extract_ko_slot (kinds : List String)
    (engines : Nat → String → Option (List String) → List BuiltinEntity)
    (s : MemState) (addr : Nat) (sentence : CStr)
    (filters : Option (List CStr)) (slot : Option (List CBuiltinEntity)) :
    (nlu_ontology_extract_entities kinds engines s addr sentence filters
        slot).status = .RESULT_KO →
      (nlu_ontology_extract_entities kinds engines s addr sentence filters
        slot).slot = slot := by
  cases hL : s.containers.lookup addr with
  | none => simp [nlu_ontology_extract_entities, hL]
  | some pid =>
    cases hx : extract_entity kinds (engines pid) sentence filters <;>
      simp [nlu_ontology_extract_entities, hL, hx]

/-- Status and, on success, the written result of an `extract` ABI call do
not depend on the previous content of the output slot. -/
theorem extract_indep_slot (kinds : List String)
    (engines : Nat → String → Option (List String) → List BuiltinEntity)
    (s : MemState) (addr : Nat) (sentence : CStr)
    (filters : Option (List CStr))
    (slotA slotB : Option (List CBuiltinEntity)) :
    (nlu_ontology_extract_entities kinds engines s addr sentence filters
        slotA).status =
      (nlu_ontology_extract_entities kinds engines s addr sentence filters
        slotB).status ∧
    ((nlu_ontology_extract_entities kinds engines s addr sentence filters
        slotA).status = .RESULT_OK →
      (nlu_ontology_extract_entities kinds engines s addr sentence filters
          slotA).slot =
        (nlu_ontology_extract_entities kinds engines s addr sentence filters
          slotB).slot) := by
  cases hL : s.containers.lookup addr with
  | none => simp [nlu_ontology_extract_entities, hL]
  | some pid =>
    cases hx : extract_entity kinds (engines pid) sentence filters <;>
      simp [nlu_ontology_extract_entities, hL, hx]

theorem except_map_ok {α β ε : Type _} (a : α) (f : α → β) :
    (Except.ok a : Except ε α).map f = .ok (f a) := rfl

theorem except_map_error {α β ε : Type _} (e : ε) (f : α → β) :
    (Except.error e : Except ε α).map f = .error e := rfl

/-- C1: evaluation at the failing input. Creating a parser for "en" and then
destroying the returned handle returns success and releases the parser's only
share (strong count one, then zero, so the parser instance is released with
the last share), yet the wrapping container is still allocated afterwards:
the code reclaims the `Arc` share but never frees the box produced by
`Box::into_raw` in create, while the claim says destroy deallocates the
wrapping container. -/
theorem destroy_leaks_wrapping_container :
    (nlu_ontology_create_builtin_entity_parser_abi ["en"] (fun _ => 7)
        ⟨[], [], 0⟩ (CStr.valid "en") none).status = .RESULT_OK ∧
    (nlu_ontology_create_builtin_entity_parser_abi ["en"] (fun _ => 7)
        ⟨[], [], 0⟩ (CStr.valid "en") none).slot = some 0 ∧
    (nlu_ontology_create_builtin_entity_parser_abi ["en"] (fun _ => 7)
        ⟨[], [], 0⟩ (CStr.valid "en") none).state.rcOf 7 = 1 ∧
    (nlu_ontology_create_builtin_entity_parser_abi ["en"] (fun _ => 7)
        ⟨[], [], 0⟩ (CStr.valid "en") none).state.containers = [(0, 7)] ∧
    (nlu_ontology_destroy_builtin_entity_parser_abi
        (nlu_ontology_create_builtin_entity_parser_abi ["en"] (fun _ => 7)
          ⟨[], [], 0⟩ (CStr.valid "en") none).state 0).2 = .RESULT_OK ∧
    ((nlu_ontology_destroy_builtin_entity_parser_abi
        (nlu_ontology_create_builtin_entity_parser_abi ["en"] (fun _ => 7)
          ⟨[], [], 0⟩ (CStr.valid "en") none).state 0).1).rcOf 7 = 0 ∧
    ((nlu_ontology_destroy_builtin_entity_parser_abi
        (nlu_ontology_create_builtin_entity_parser_abi ["en"] (fun _ => 7)
          ⟨[], [], 0⟩ (CStr.valid "en") none).state 0).1).containers =
      [(0, 7)] := by
  decide

/-- C2: on a live handle, a valid sentence and a filter list of valid text
names at least one of which does not resolve in the taxonomy, extract fails
with `unknownEntityKind` naming the first unresolved name in list order, the
heap is untouched and the output slot keeps its previous content. -/
theorem extract_unknown_kind_first (kinds : List String)
    (engines : Nat → String → Option (List String) → List BuiltinEntity)
    (s : MemState) (addr pid : Nat) (text : String) (ns : List String)
    (name : String) (slot : Option (List CBuiltinEntity))
    (hlive : s.containers.lookup addr = some pid)
    (hfirst : firstUnknownKind kinds ns = some name) :
    nlu_ontology_extract_entities kinds engines s addr (CStr.valid text)
        (some (ns.map CStr.valid)) slot =
      ⟨s, .RESULT_KO, some (.unknownEntityKind name), slot⟩ := by
  have hres : resolveKindList kinds (ns.map CStr.valid) =
      .error (.unknownEntityKind name) := by
    rw [resolveKindList_valid, hfirst]
  have hx : extract_entity kinds (engines pid) (CStr.valid text)
      (some (ns.map CStr.valid)) = .error (.unknownEntityKind name) := by
    simp [extract_entity, CStr.toStr, resolveFilters, hres, except_bind_ok,
      except_bind_error, except_map_error]
  simp [nlu_ontology_extract_entities, hlive, hx]

/-- C2 witness: with taxonomy {snips/number, snips/ordinal} and filter list
[snips/number, snips/bogus, snips/ordinal] — valid names before and after the
unresolved one — extract fails naming exactly snips/bogus and the slot stays
empty. -/
theorem extract_unknown_kind_first_witness :
    (⟨[(0, 7)], [(7, 1)], 1⟩ : MemState).containers.lookup 0 = some 7 ∧
    firstUnknownKind ["snips/number", "snips/ordinal"]
      ["snips/number", "snips/bogus", "snips/ordinal"] = some "snips/bogus" ∧
    nlu_ontology_extract_entities ["snips/number", "snips/ordinal"]
        (fun _ _ _ => []) ⟨[(0, 7)], [(7, 1)], 1⟩ 0 (CStr.valid "meet at 5")
        (some (["snips/number", "snips/bogus", "snips/ordinal"].map CStr.valid))
        none =
      ⟨⟨[(0, 7)], [(7, 1)], 1⟩, .RESULT_KO,
        some (.unknownEntityKind "snips/bogus"), none⟩ :=
  ⟨by decide, by decide,
    extract_unknown_kind_first ["snips/number", "snips/ordinal"]
      (fun _ _ _ => []) ⟨[(0, 7)], [(7, 1)], 1⟩ 0 7 "meet at 5"
      ["snips/number", "snips/bogus", "snips/ordinal"] "snips/bogus" none
      (by decide) (by decide)⟩

/-- C3: create fails with invalid-text on malformed language bytes and with
unknown-language on a valid code outside the supported set; in both failure
cases the handle output slot keeps its previous content and the heap is
untouched. -/
theorem create_failure_cases (supported : List String) (getP : String → Nat)
    (s : MemState) (slot : Option Nat) :
    (nlu_ontology_create_builtin_entity_parser_abi supported getP s CStr.invalid
        slot = ⟨s, .RESULT_KO, some .invalidText, slot⟩) ∧
    (∀ code : String, ¬ code ∈ supported →
      nlu_ontology_create_builtin_entity_parser_abi supported getP s
          (CStr.valid code) slot =
        ⟨s, .RESULT_KO, some (.unknownLanguage code), slot⟩) := by
  constructor
  · rfl
  · intro code hc
    have hx : createBuiltinEntityParser supported getP s (CStr.valid code) =
        .error (.unknownLanguage code) := by
      simp [createBuiltinEntityParser, CStr.toStr, languageFromStr, hc,
        except_bind_ok, except_bind_error]
    simp [nlu_ontology_create_builtin_entity_parser_abi, hx]

/-- C3 witness: with supported set {en}, create on malformed bytes fails with
invalid-text and create on the valid but unsupported code xx fails with
unknown-language; both leave the handle slot empty. -/
theorem create_failure_cases_witness :
    (nlu_ontology_create_builtin_entity_parser_abi ["en"] (fun _ => 7) ⟨[], [], 0⟩
        CStr.invalid none =
      ⟨⟨[], [], 0⟩, .RESULT_KO, some .invalidText, none⟩) ∧
    (¬ "xx" ∈ ["en"]) ∧
    (nlu_ontology_create_builtin_entity_parser_abi ["en"] (fun _ => 7) ⟨[], [], 0⟩
        (CStr.valid "xx") none =
      ⟨⟨[], [], 0⟩, .RESULT_KO, some (.unknownLanguage "xx"), none⟩) :=
  ⟨(create_failure_cases ["en"] (fun _ => 7) ⟨[], [], 0⟩ none).1, by decide,
    (create_failure_cases ["en"] (fun _ => 7) ⟨[], [], 0⟩ none).2 "xx"
      (by decide)⟩

/-- C4: on a live handle, extract with malformed sentence bytes fails with
invalid-text, the heap is untouched and the output slot keeps its previous
content. -/
theorem extract_invalid_sentence (kinds : List String)
    (engines : Nat → String → Option (List String) → List BuiltinEntity)
    (s : MemState) (addr pid : Nat) (filters : Option (List CStr))
    (slot : Option (List CBuiltinEntity))
    (hlive : s.containers.lookup addr = some pid) :
    nlu_ontology_extract_entities kinds engines s addr CStr.invalid filters
        slot = ⟨s, .RESULT_KO, some .invalidText, slot⟩ := by
  have hx : extract_entity kinds (engines pid) CStr.invalid filters =
      .error .invalidText := rfl
  simp [nlu_ontology_extract_entities, hlive, hx]

/-- C4 witness: on a live handle, malformed sentence bytes give a failure with
invalid-text and the slot stays empty. -/
theorem extract_invalid_sentence_witness :
    (⟨[(0, 7)], [(7, 1)], 1⟩ : MemState).containers.lookup 0 = some 7 ∧
    nlu_ontology_extract_entities [] (fun _ _ _ => []) ⟨[(0, 7)], [(7, 1)], 1⟩
        0 CStr.invalid none none =
      ⟨⟨[(0, 7)], [(7, 1)], 1⟩, .RESULT_KO, some .invalidText, none⟩ :=
  ⟨by decide,
    extract_invalid_sentence [] (fun _ _ _ => []) ⟨[(0, 7)], [(7, 1)], 1⟩ 0 7
      none none (by decide)⟩

/-- C5: on a live handle, with a valid sentence and filters that resolve, the
call succeeds and writes to the output slot a fresh array holding the
conversion of each engine record, in engine order; in particular when the
engine returns no record a fresh empty array is still written. -/
theorem extract_success_writes_fresh_array (kinds : List String)
    (engines : Nat → String → Option (List String) → List BuiltinEntity)
    (s : MemState) (addr pid : Nat) (text : String)
    (filters : Option (List CStr)) (fl : Option (List String))
    (slot : Option (List CBuiltinEntity))
    (hlive : s.containers.lookup addr = some pid)
    (hfl : resolveFilters kinds filters = .ok fl) :
    nlu_ontology_extract_entities kinds engines s addr (CStr.valid text)
        filters slot =
      ⟨s, .RESULT_OK, none,
        some ((engines pid text fl).map CBuiltinEntity.ofEntity)⟩ := by
  have hx : extract_entity kinds (engines pid) (CStr.valid text) filters =
      .ok ((engines pid text fl).map CBuiltinEntity.ofEntity) := by
    simp [extract_entity, CStr.toStr, hfl, except_bind_ok]
  simp [nlu_ontology_extract_entities, hlive, hx]

/-- C5 witness: with an engine returning zero records and absent filters, the
call succeeds and writes a fresh empty array over the previously empty
slot. -/
theorem extract_success_writes_fresh_array_witness :
    (⟨[(0, 7)], [(7, 1)], 1⟩ : MemState).containers.lookup 0 = some 7 ∧
    resolveFilters [] (none : Option (List CStr)) = .ok none ∧
    nlu_ontology_extract_entities [] (fun _ _ _ => []) ⟨[(0, 7)], [(7, 1)], 1⟩
        0 (CStr.valid "hello") none none =
      ⟨⟨[(0, 7)], [(7, 1)], 1⟩, .RESULT_OK, none, some []⟩ :=
  ⟨by decide, rfl,
    extract_success_writes_fresh_array [] (fun _ _ _ => [])
      ⟨[(0, 7)], [(7, 1)], 1⟩ 0 7 "hello" none none none (by decide) rfl⟩

/-- C6: extract mutates nothing: the heap — containers and parser reference
counts — comes back exactly as it was, and apart from the single write of the
freshly built array on success the output slot keeps its previous content;
the filter list is consumed as an immutable value. -/
theorem extract_no_mutation (kinds : List String)
    (engines : Nat → String → Option (List String) → List BuiltinEntity)
    (s : MemState) (addr : Nat) (sentence : CStr)
    (filters : Option (List CStr)) (slot : Option (List CBuiltinEntity)) :
    ((nlu_ontology_extract_entities kinds engines s addr sentence filters
        slot).state = s) ∧
    ((nlu_ontology_extract_entities kinds engines s addr sentence filters
        slot).status = .RESULT_KO →
      (nlu_ontology_extract_entities kinds engines s addr sentence filters
        slot).slot = slot) :=
  ⟨extract_state_eq kinds engines s addr sentence filters slot,
    extract_ko_slot kinds engines s addr sentence filters slot⟩

/-- C6 witness: a failing call on a live handle leaves the previously empty
slot empty (and the state equation is instantiated at the same input). -/
theorem extract_no_mutation_witness :
    ((nlu_ontology_extract_entities [] (fun _ _ _ => [])
        ⟨[(0, 7)], [(7, 1)], 1⟩ 0 CStr.invalid none none).state =
      ⟨[(0, 7)], [(7, 1)], 1⟩) ∧
    ((nlu_ontology_extract_entities [] (fun _ _ _ => [])
        ⟨[(0, 7)], [(7, 1)], 1⟩ 0 CStr.invalid none none).slot = none) :=
  ⟨(extract_no_mutation [] (fun _ _ _ => []) ⟨[(0, 7)], [(7, 1)], 1⟩ 0
      CStr.invalid none none).1,
    (extract_no_mutation [] (fun _ _ _ => []) ⟨[(0, 7)], [(7, 1)], 1⟩ 0
      CStr.invalid none none).2 (by decide)⟩

/-- C7: two extract calls with identical handle, sentence and filters, the
second running on the state left by the first, return the same status and, on
success, write identical ordered result sequences. -/
theorem extract_idempotent (kinds : List String)
    (engines : Nat → String → Option (List String) → List BuiltinEntity)
    (s : MemState) (addr : Nat) (sentence : CStr)
    (filters : Option (List CStr))
    (slotA slotB : Option (List CBuiltinEntity)) :
    ((nlu_ontology_extract_entities kinds engines
        (nlu_ontology_extract_entities kinds engines s addr sentence filters
          slotA).state addr sentence filters slotB).status =
      (nlu_ontology_extract_entities kinds engines s addr sentence filters
        slotA).status) ∧
    ((nlu_ontology_extract_entities kinds engines s addr sentence filters
        slotA).status = .RESULT_OK →
      (nlu_ontology_extract_entities kinds engines
          (nlu_ontology_extract_entities kinds engines s addr sentence filters
            slotA).state addr sentence filters slotB).slot =
        (nlu_ontology_extract_entities kinds engines s addr sentence filters
          slotA).slot) := by
  rw [extract_state_eq]
  obtain ⟨h1, h2⟩ :=
    extract_indep_slot kinds engines s addr sentence filters slotA slotB
  exact ⟨h1.symm, fun h => (h2 h).symm⟩

/-- C7 witness: a successful call repeated on the state left by the first
writes the same result array. -/
theorem extract_idempotent_witness :
    (nlu_ontology_extract_entities [] (fun _ _ _ => [])
        (nlu_ontology_extract_entities [] (fun _ _ _ => [])
          ⟨[(0, 7)], [(7, 1)], 1⟩ 0 (CStr.valid "hello") none none).state
        0 (CStr.valid "hello") none none).slot =
      (nlu_ontology_extract_entities [] (fun _ _ _ => [])
        ⟨[(0, 7)], [(7, 1)], 1⟩ 0 (CStr.valid "hello") none none).slot :=
  (extract_idempotent [] (fun _ _ _ => []) ⟨[(0, 7)], [(7, 1)], 1⟩ 0
    (CStr.valid "hello") none none none).2 (by decide)

/-- C8: on a live handle, destroy returns success unconditionally; the
function has no failure path. -/
theorem destroy_always_ok (s : MemState) (addr pid : Nat)
    (hlive : s.containers.lookup addr = some pid) :
    (nlu_ontology_destroy_builtin_entity_parser_abi s addr).2 = .RESULT_OK := by
  simp [nlu_ontology_destroy_builtin_entity_parser_abi, hlive]

/-- C8 witness: destroy on a concrete live handle returns success. -/
theorem destroy_always_ok_witness :
    (⟨[(0, 7)], [(7, 1)], 1⟩ : MemState).containers.lookup 0 = some 7 ∧
    (nlu_ontology_destroy_builtin_entity_parser_abi ⟨[(0, 7)], [(7, 1)], 1⟩ 0).2 =
      .RESULT_OK :=
  ⟨by decide,
    destroy_always_ok ⟨[(0, 7)], [(7, 1)], 1⟩ 0 7 (by decide)⟩

/-- C9: filter elements are validated one at a time in list order: a list
whose first element is valid text naming an unknown kind and whose second
element is malformed bytes makes extract fail with `unknownEntityKind` for
the first element, not invalid-text for the second. -/
theorem filters_validated_in_order (kinds : List String)
    (engines : Nat → String → Option (List String) → List BuiltinEntity)
    (s : MemState) (addr pid : Nat) (text name : String) (rest : List CStr)
    (slot : Option (List CBuiltinEntity))
    (hlive : s.containers.lookup addr = some pid)
    (hname : ¬ name ∈ kinds) :
    nlu_ontology_extract_entities kinds engines s addr (CStr.valid text)
        (some (CStr.valid name :: CStr.invalid :: rest)) slot =
      ⟨s, .RESULT_KO, some (.unknownEntityKind name), slot⟩ := by
  have hres : resolveKindList kinds (CStr.valid name :: CStr.invalid :: rest) =
      .error (.unknownEntityKind name) := by
    simp [resolveKindList, CStr.toStr, builtinEntityKindFromIdentifier, hname,
      except_bind_ok, except_bind_error]
  have hx : extract_entity kinds (engines pid) (CStr.valid text)
      (some (CStr.valid name :: CStr.invalid :: rest)) =
      .error (.unknownEntityKind name) := by
    simp [extract_entity, CStr.toStr, resolveFilters, hres, except_bind_ok,
      except_bind_error, except_map_error]
  simp [nlu_ontology_extract_entities, hlive, hx]

/-- C9 witness: the filter list [snips/bogus, malformed bytes] fails naming
snips/bogus, before the malformed second element is examined. -/
theorem filters_validated_in_order_witness :
    (⟨[(0, 7)], [(7, 1)], 1⟩ : MemState).containers.lookup 0 = some 7 ∧
    (¬ "snips/bogus" ∈ ["snips/number"]) ∧
    nlu_ontology_extract_entities ["snips/number"] (fun _ _ _ => [])
        ⟨[(0, 7)], [(7, 1)], 1⟩ 0 (CStr.valid "meet at 5")
        (some [CStr.valid "snips/bogus", CStr.invalid]) none =
      ⟨⟨[(0, 7)], [(7, 1)], 1⟩, .RESULT_KO,
        some (.unknownEntityKind "snips/bogus"), none⟩ :=
  ⟨by decide, by decide,
    filters_validated_in_order ["snips/number"] (fun _ _ _ => [])
      ⟨[(0, 7)], [(7, 1)], 1⟩ 0 7 "meet at 5" "snips/bogus" [] none
      (by decide) (by decide)⟩

/-- C10: only a null filters pointer is the absent sentinel: a non-null array
of count zero resolves to the explicit empty filter set `some []`, a value
distinct from the sentinel `none`, and the engine is invoked with `some []`
in the one case and `none` in the other. -/
theorem empty_filters_distinct_from_absent (kinds : List String)
    (engines : Nat → String → Option (List String) → List BuiltinEntity)
    (s : MemState) (addr pid : Nat) (text : String)
    (slot : Option (List CBuiltinEntity))
    (hlive : s.containers.lookup addr = some pid) :
    (resolveFilters kinds (some []) = .ok (some [])) ∧
    (resolveFilters kinds none = .ok none) ∧
    (some ([] : List String) ≠ (none : Option (List String))) ∧
    (nlu_ontology_extract_entities kinds engines s addr (CStr.valid text)
        (some []) slot =
      ⟨s, .RESULT_OK, none,
        some ((engines pid text (some [])).map CBuiltinEntity.ofEntity)⟩) ∧
    (nlu_ontology_extract_entities kinds engines s addr (CStr.valid text)
        none slot =
      ⟨s, .RESULT_OK, none,
        some ((engines pid text none).map CBuiltinEntity.ofEntity)⟩) := by
  refine ⟨rfl, rfl, by simp, ?_, ?_⟩
  · have hx : extract_entity kinds (engines pid) (CStr.valid text) (some []) =
        .ok ((engines pid text (some [])).map CBuiltinEntity.ofEntity) := rfl
    simp [nlu_ontology_extract_entities, hlive, hx]
  · have hx : extract_entity kinds (engines pid) (CStr.valid text) none =
        .ok ((engines pid text none).map CBuiltinEntity.ofEntity) := rfl
    simp [nlu_ontology_extract_entities, hlive, hx]

/-- C10 witness: instantiated with an engine that returns a record only under
the absent sentinel, the explicit empty filter set yields an empty result
array while the absent sentinel yields a non-empty one — the two inputs are
observably distinct. -/
theorem empty_filters_distinct_from_absent_witness :
    (resolveFilters ["snips/number"] (some []) = .ok (some [])) ∧
    (resolveFilters ["snips/number"] none = .ok none) ∧
    (some ([] : List String) ≠ (none : Option (List String))) ∧
    (nlu_ontology_extract_entities ["snips/number"]
        (fun _ _ fl => match fl with
          | none => [⟨"snips/number", 8, 9, "5"⟩]
          | some _ => [])
        ⟨[(0, 7)], [(7, 1)], 1⟩ 0 (CStr.valid "meet at 5") (some []) none =
      ⟨⟨[(0, 7)], [(7, 1)], 1⟩, .RESULT_OK, none, some []⟩) ∧
    (nlu_ontology_extract_entities ["snips/number"]
        (fun _ _ fl => match fl with
          | none => [⟨"snips/number", 8, 9, "5"⟩]
          | some _ => [])
        ⟨[(0, 7)], [(7, 1)], 1⟩ 0 (CStr.valid "meet at 5") none none =
      ⟨⟨[(0, 7)], [(7, 1)], 1⟩, .RESULT_OK, none,
        some [⟨"snips/number", 8, 9, "5"⟩]⟩) :=
  empty_filters_distinct_from_absent ["snips/number"]
    (fun _ _ fl => match fl with
      | none => [⟨"snips/number", 8, 9, "5"⟩]
      | some _ => [])
    ⟨[(0, 7)], [(7, 1)], 1⟩ 0 7 "meet at 5" none (by decide)

end Snips
